import Mathlib

/-!
Verification development for the payment-processing ledger.

Shallow embedding of the repository's core:
  * `src/domain/src/amount.rs`      — `Amount` (a non-negative decimal; modelled as `ℚ`,
    since `Money`/`Decimal` equality and ordering are by numeric value and the account
    layer only adds, subtracts and compares),
  * `src/domain/src/account.rs`     — `Account` and its five mutating operations,
  * `src/domain/src/transaction.rs` — the `Transaction` sum type, its state machine
    (`change_state`) and the fixed-scale serialisation of `Amount`,
  * `src/engine/src/processor.rs`   — `TransactionProcessor::handle_transaction` and
    `get_accounts`.

Rust methods mutate `self` and return a `Result<(), E>`; they are embedded as pure
functions returning `Option Error × State`, where the returned state is the value of
`self` after the call — including the partial mutations the source performs on some
error paths (those are observable and are the subject of several claims below).
HashMaps are embedded as association lists (`alookup`/`aupsert`/`aremove`) and the
`HashSet` of used transaction ids as a list with membership.
-/

namespace Payments

/-- `ClientId` (`i16` in `src/domain/src/config.rs`); the claims do not involve
integer overflow, so it is modelled as `Int`. -/
abbrev ClientId := Int

/-- `TransactionId` (`i32` in `src/domain/src/config.rs`). -/
abbrev TransactionId := Int

/-- `Amount` from `src/domain/src/amount.rs`: a wrapper over `Money`/`Decimal`.
Its `PartialEq`/`Ord` compare numeric values, and the ledger only adds, subtracts
and compares amounts, so the balance-level model is the rational value. -/
abbrev Amount := ℚ

/-- `Amount::checked_sub_assign` (`src/domain/src/amount.rs:38`): subtracts iff
`self >= rhs`, otherwise fails (`SubtractToNegative`, which `account.rs` converts
to `InsufficientFunds`). -/
def checkedSub (a b : Amount) : Option Amount :=
  if b ≤ a then some (a - b) else none

/-- `AccountError` from `src/domain/src/account.rs`. -/
inductive AccountError where
  | accountLocked
  | insufficientFunds
deriving DecidableEq

/-- `Account` from `src/domain/src/account.rs:32`: note that `total` is a stored
field, distinct from the recomputing method `Account::total()` (here `total'`). -/
structure Account where
  client_id : ClientId
  available : Amount
  held : Amount
  total : Amount
  locked : Bool
deriving DecidableEq

namespace Account

/-- `Account::new` (`src/domain/src/account.rs:50`): the stored `total` field is
initialised to `available + held`. -/
def new (client_id : ClientId) (available held : Amount) (locked : Bool) : Account :=
  { client_id := client_id, available := available, held := held,
    total := available + held, locked := locked }

/-- `Account::deposit` (`src/domain/src/account.rs:61`): fails if locked, else
`available += amount`.  The stored `total` field is not touched. -/
def deposit (a : Account) (amount : Amount) : Option AccountError × Account :=
  if a.locked then (some .accountLocked, a)
  else (none, { a with available := a.available + amount })

/-- `Account::withdraw` (`src/domain/src/account.rs:78`): fails if locked, else
`available = checked_sub(available, amount)`. -/
def withdraw (a : Account) (amount : Amount) : Option AccountError × Account :=
  if a.locked then (some .accountLocked, a)
  else
    match checkedSub a.available amount with
    | some v => (none, { a with available := v })
    | none => (some .insufficientFunds, a)

/-- `Account::hold` (`src/domain/src/account.rs:95`): fails if locked, else
`held += amount; available = checked_sub(available, amount)` — in that order, so
on an insufficient-funds failure `held` has already been increased. -/
def hold (a : Account) (amount : Amount) : Option AccountError × Account :=
  if a.locked then (some .accountLocked, a)
  else
    let a1 : Account := { a with held := a.held + amount }
    match checkedSub a1.available amount with
    | some v => (none, { a1 with available := v })
    | none => (some .insufficientFunds, a1)

/-- `Account::release` (`src/domain/src/account.rs:113`): fails if locked, else
`held = checked_sub(held, amount); available += amount`. -/
def release (a : Account) (amount : Amount) : Option AccountError × Account :=
  if a.locked then (some .accountLocked, a)
  else
    match checkedSub a.held amount with
    | some v => (none, { a with held := v, available := a.available + amount })
    | none => (some .insufficientFunds, a)

/-- `Account::chargeback` (`src/domain/src/account.rs:131`): fails if locked, else
`held = checked_sub(held, amount); locked = true`. -/
def chargeback (a : Account) (amount : Amount) : Option AccountError × Account :=
  if a.locked then (some .accountLocked, a)
  else
    match checkedSub a.held amount with
    | some v => (none, { a with held := v, locked := true })
    | none => (some .insufficientFunds, a)

/-- `Account::total()` (`src/domain/src/account.rs:144`): recomputed on read as
`default + available + held`. -/
def total' (a : Account) : Amount :=
  0 + a.available + a.held

end Account

/-- `TransactionState` from `src/domain/src/transaction.rs:135`. -/
inductive TransactionState where
  | Okay
  | Disputed
  | ChargedBack
deriving DecidableEq

/-- `Transaction` from `src/domain/src/transaction.rs:146`: five variants, only
`Deposit`/`Withdrawal` carry an amount and a dispute state. -/
inductive Transaction where
  | deposit (id : TransactionId) (amount : Amount) (client_id : ClientId)
      (state : TransactionState)
  | withdrawal (id : TransactionId) (amount : Amount) (client_id : ClientId)
      (state : TransactionState)
  | dispute (id : TransactionId) (client : ClientId)
  | resolve (id : TransactionId) (client : ClientId)
  | chargeback (id : TransactionId) (client : ClientId)
deriving DecidableEq

/-- `TransactionError` from `src/domain/src/transaction.rs:116`. -/
inductive TransactionError where
  | transactionNotFound (tx : Transaction)
  | duplicateGlobalTransactionId (tx : Transaction)
  | invalidTransactionId (tx : Transaction)
  | insufficientFunds (tx : Transaction)
  | illegalStateChange (tx : Transaction)
  | accountFrozen (tx : Transaction)
  | internalError (tx : Transaction) (msg : String)
deriving DecidableEq

/-- Discriminator for the `IllegalStateChange` variant of `TransactionError`. -/
def TransactionError.isIllegalStateChange : TransactionError → Bool
  | .illegalStateChange _ => true
  | _ => false

namespace Transaction

/-- `Transaction::id` (`src/domain/src/transaction.rs:261`). -/
def txId : Transaction → TransactionId
  | .deposit id _ _ _ => id
  | .withdrawal id _ _ _ => id
  | .dispute id _ => id
  | .resolve id _ => id
  | .chargeback id _ => id

/-- `Transaction::client_id` (`src/domain/src/transaction.rs:339`). -/
def clientId : Transaction → ClientId
  | .deposit _ _ c _ => c
  | .withdrawal _ _ c _ => c
  | .dispute _ c => c
  | .resolve _ c => c
  | .chargeback _ c => c

/-- `Transaction::amount` (`src/domain/src/transaction.rs:274`): `Some` only for
`Deposit`/`Withdrawal`. -/
def amount : Transaction → Option Amount
  | .deposit _ a _ _ => some a
  | .withdrawal _ a _ _ => some a
  | _ => none

/-- `Transaction::state` (`src/domain/src/transaction.rs:285`): `Some` only for
`Deposit`/`Withdrawal`. -/
def stateOf : Transaction → Option TransactionState
  | .deposit _ _ _ s => some s
  | .withdrawal _ _ _ s => some s
  | _ => none

/-- True for the three command variants (`Dispute`/`Resolve`/`Chargeback`). -/
def isRefCmd : Transaction → Bool
  | .dispute _ _ => true
  | .resolve _ _ => true
  | .chargeback _ _ => true
  | _ => false

end Transaction

/-- The three permitted transitions of the dispute state machine
(`src/domain/src/transaction.rs:307`). -/
def allowedTransition : TransactionState → TransactionState → Bool
  | .Okay, .Disputed => true
  | .Disputed, .Okay => true
  | .Disputed, .ChargedBack => true
  | _, _ => false

/-- `Transaction::change_state` (`src/domain/src/transaction.rs:300`): on a
`Deposit`/`Withdrawal`, permitted transitions update the state and anything else
fails with `IllegalStateChange(self)` leaving the state unchanged; on a command
variant it fails with `InvalidTransactionId(self)`. -/
def changeState (t : Transaction) (target : TransactionState) :
    Option TransactionError × Transaction :=
  match t with
  | .deposit id a c s =>
    if allowedTransition s target then (none, .deposit id a c target)
    else (some (.illegalStateChange (.deposit id a c s)), .deposit id a c s)
  | .withdrawal id a c s =>
    if allowedTransition s target then (none, .withdrawal id a c target)
    else (some (.illegalStateChange (.withdrawal id a c s)), .withdrawal id a c s)
  | t => (some (.invalidTransactionId t), t)

/-- `From<(AccountError, Transaction)> for TransactionError`
(`src/domain/src/transaction.rs:198`). -/
def accountErr (e : AccountError) (t : Transaction) : TransactionError :=
  match e with
  | .insufficientFunds => .insufficientFunds t
  | .accountLocked => .accountFrozen t

/-- Per-account transaction history (`HashMap<TransactionId, Transaction>`). -/
abbrev History := List (TransactionId × Transaction)

/-- First-match lookup in an association list (models `HashMap::get`). -/
def alookup {β : Type} : List (TransactionId × β) → TransactionId → Option β
  | [], _ => none
  | (k, v) :: t, k' => if k = k' then some v else alookup t k'

/-- Insert-or-replace in an association list (models `HashMap::insert` /
`entry().or_insert` followed by in-place mutation of the slot). -/
def aupsert {β : Type} : List (TransactionId × β) → TransactionId → β →
    List (TransactionId × β)
  | [], k, v => [(k, v)]
  | (k0, v0) :: t, k, v =>
    if k0 = k then (k0, v) :: t else (k0, v0) :: aupsert t k v

/-- Remove the first binding of a key (models `HashMap::remove`). -/
def aremove {β : Type} : List (TransactionId × β) → TransactionId →
    List (TransactionId × β)
  | [], _ => []
  | (k0, v0) :: t, k => if k0 = k then t else (k0, v0) :: aremove t k

/-- State of `TransactionProcessor` (`src/engine/src/processor.rs:17`): the
per-client map of `(Account, history)` pairs and the global set of used
transaction ids. -/
structure ProcState where
  accounts : List (ClientId × (Account × History))
  global_tx_ids : List TransactionId
deriving DecidableEq

/-- `TransactionProcessor::default()`: empty maps. -/
def initState : ProcState := { accounts := [], global_tx_ids := [] }

/-- `TransactionProcessor::handle_transaction` (`src/engine/src/processor.rs:83`),
with the `entry().or_insert_with` account creation, the per-variant routing and the
early-return `?` error propagation translated branch by branch.  Mutations the Rust
code performs on the map slot before an error path (`hold`'s partial mutation, a
locked-by-`chargeback` account whose state transition then fails) are retained in
the returned state, as they are in the source. -/
def handleTransaction (st : ProcState) (tx : Transaction) :
    Option TransactionError × ProcState :=
  let c := tx.clientId
  let pr := (alookup st.accounts c).getD (Account.new c 0 0 false, [])
  let acct := pr.1
  let hist := pr.2
  match tx with
  | .deposit id amt _ _ =>
    if id ∈ st.global_tx_ids then
      (some (.duplicateGlobalTransactionId tx),
        { accounts := aupsert st.accounts c (acct, hist),
          global_tx_ids := st.global_tx_ids })
    else
      match Account.deposit acct amt with
      | (some e, acct') =>
        (some (accountErr e tx),
          { accounts := aupsert st.accounts c (acct', hist),
            global_tx_ids := st.global_tx_ids })
      | (none, acct') =>
        (none,
          { accounts := aupsert st.accounts c (acct', aupsert hist id tx),
            global_tx_ids := id :: st.global_tx_ids })
  | .withdrawal id amt _ _ =>
    if id ∈ st.global_tx_ids then
      (some (.duplicateGlobalTransactionId tx),
        { accounts := aupsert st.accounts c (acct, hist),
          global_tx_ids := st.global_tx_ids })
    else
      match Account.withdraw acct amt with
      | (some e, acct') =>
        (some (accountErr e tx),
          { accounts := aupsert st.accounts c (acct', hist),
            global_tx_ids := st.global_tx_ids })
      | (none, acct') =>
        (none,
          { accounts := aupsert st.accounts c (acct', aupsert hist id tx),
            global_tx_ids := id :: st.global_tx_ids })
  | .dispute id _ =>
    match alookup hist id with
    | none =>
      (some (.transactionNotFound tx),
        { accounts := aupsert st.accounts c (acct, hist),
          global_tx_ids := st.global_tx_ids })
    | some txr =>
      match txr.amount with
      | none =>
        (some (.invalidTransactionId txr),
          { accounts := aupsert st.accounts c (acct, hist),
            global_tx_ids := st.global_tx_ids })
      | some amt =>
        match Account.hold acct amt with
        | (some e, acct') =>
          (some (accountErr e txr),
            { accounts := aupsert st.accounts c (acct', hist),
              global_tx_ids := st.global_tx_ids })
        | (none, acct') =>
          let scr := changeState txr .Disputed
          (scr.1,
            { accounts := aupsert st.accounts c (acct', aupsert hist id scr.2),
              global_tx_ids := st.global_tx_ids })
  | .resolve id _ =>
    match alookup hist id with
    | none =>
      (some (.transactionNotFound tx),
        { accounts := aupsert st.accounts c (acct, hist),
          global_tx_ids := st.global_tx_ids })
    | some txr =>
      match txr.amount with
      | none =>
        (some (.invalidTransactionId txr),
          { accounts := aupsert st.accounts c (acct, hist),
            global_tx_ids := st.global_tx_ids })
      | some amt =>
        match Account.release acct amt with
        | (some e, acct') =>
          (some (accountErr e txr),
            { accounts := aupsert st.accounts c (acct', hist),
              global_tx_ids := st.global_tx_ids })
        | (none, acct') =>
          let scr := changeState txr .Okay
          (scr.1,
            { accounts := aupsert st.accounts c (acct', aupsert hist id scr.2),
              global_tx_ids := st.global_tx_ids })
  | .chargeback id _ =>
    match alookup hist id with
    | none =>
      (some (.transactionNotFound tx),
        { accounts := aupsert st.accounts c (acct, hist),
          global_tx_ids := st.global_tx_ids })
    | some txr =>
      match txr.amount with
      | none =>
        (some (.invalidTransactionId txr),
          { accounts := aupsert st.accounts c (acct, hist),
            global_tx_ids := st.global_tx_ids })
      | some amt =>
        match Account.chargeback acct amt with
        | (some e, acct') =>
          (some (accountErr e txr),
            { accounts := aupsert st.accounts c (acct', hist),
              global_tx_ids := st.global_tx_ids })
        | (none, acct') =>
          let scr := changeState txr .ChargedBack
          match scr.1 with
          | some e =>
            (some e,
              { accounts := aupsert st.accounts c (acct', aupsert hist id scr.2),
                global_tx_ids := st.global_tx_ids })
          | none =>
            (none,
              { accounts :=
                  aupsert st.accounts c (acct', aremove (aupsert hist id scr.2) id),
                global_tx_ids := st.global_tx_ids })

/-- Processing a whole record stream (`process_transactions`'s loop over
`handle_transaction`). -/
def runP (st : ProcState) : List Transaction → ProcState
  | [] => st
  | tx :: rest => runP (handleTransaction st tx).2 rest

/-- Per-record outcomes of processing a stream, aligned with the input list. -/
def runResults (st : ProcState) : List Transaction → List (Option TransactionError)
  | [] => []
  | tx :: rest =>
    (handleTransaction st tx).1 :: runResults (handleTransaction st tx).2 rest

/-- `TransactionProcessor::get_accounts` (`src/engine/src/processor.rs:166`):
the accounts of the final snapshot. -/
def getAccounts (st : ProcState) : List Account :=
  st.accounts.map (fun p => p.2.1)

/-- True for the two fund-moving variants (`Deposit`/`Withdrawal`). -/
def Transaction.isDW : Transaction → Bool
  | .deposit _ _ _ _ => true
  | .withdrawal _ _ _ _ => true
  | _ => false

/-- Decimal value at an explicit scale, as `rust_decimal::Decimal` carries it:
the number `m / 10 ^ s`.  The textual rendering used by the `Amount`
serialisation code is the exact decimal string of this pair
(`Decimal::to_string` / `Decimal::from_str_exact` are mutually inverse between
a decimal and its rendering), so text is modelled by the `Dec` it denotes. -/
structure Dec where
  m : Int
  s : Nat
deriving DecidableEq

/-- Round-half-away-from-zero of `m / 10 ^ k` to an integer
(`RoundingStrategy::MidpointAwayFromZero`). -/
def roundHalfAway (m : Int) (k : Nat) : Int :=
  if 0 ≤ m then (2 * m + 10 ^ k) / (2 * 10 ^ k)
  else -((2 * (-m) + 10 ^ k) / (2 * 10 ^ k))

/-- `Decimal::round_dp_with_strategy(dp, MidpointAwayFromZero)`: a decimal whose
scale is within `dp` is returned unchanged, otherwise it is rounded to scale
`dp` with round-half-away-from-zero. -/
def roundDp (dp : Nat) (d : Dec) : Dec :=
  if d.s ≤ dp then d else { m := roundHalfAway d.m (d.s - dp), s := dp }

/-- `impl Serialize for Amount` (`src/domain/src/transaction.rs:101`): round to
`MAX_DECIMAL_PLACES = 4` with round-half-away-from-zero and render without the
currency symbol (the symbol `replace` is a no-op on a bare decimal rendering). -/
def serializeAmount (d : Dec) : Dec := roundDp 4 d

/-- `impl Deserialize for Amount` (`src/domain/src/transaction.rs:65`): parse the
text exactly, reject a scale above `MAX_DECIMAL_PLACES = 4`, then reject a
negative value (`Amount::try_from(Money)`). -/
def deserializeAmount (d : Dec) : Option Dec :=
  if 4 < d.s then none
  else if d.m < 0 then none
  else some d

/-- State reached by depositing 1 and 5 to client 1 and disputing transaction 1:
available 5, held 1, transaction 1 recorded as `Disputed`. -/
def disputeTwiceState : ProcState :=
  runP initState
    [.deposit 1 1 1 .Okay, .deposit 2 5 1 .Okay, .dispute 1 1]

/-! Association-list lemmas used to reason about the `HashMap` model. -/

theorem alookup_aupsert {β : Type} (l : List (TransactionId × β)) (k k' : TransactionId)
    (v : β) :
    alookup (aupsert l k v) k' = if k = k' then some v else alookup l k' := by
  induction l with
  | nil => simp [aupsert, alookup]
  | cons p t ih =>
    obtain ⟨k0, v0⟩ := p
    by_cases h0 : k0 = k
    · subst h0
      by_cases h1 : k0 = k'
      · subst h1; simp [aupsert, alookup]
      · simp [aupsert, alookup, h1]
    · by_cases h1 : k0 = k'
      · subst h1
        have : ¬ k = k0 := fun h => h0 h.symm
        simp [aupsert, alookup, h0, this]
      · simp [aupsert, alookup, h0, h1, ih]

theorem aupsert_self {β : Type} {l : List (TransactionId × β)} {k : TransactionId}
    {v : β} (h : alookup l k = some v) : aupsert l k v = l := by
  induction l with
  | nil => simp [alookup] at h
  | cons p t ih =>
    obtain ⟨k0, v0⟩ := p
    by_cases h0 : k0 = k
    · subst h0
      simp [alookup] at h
      simp [aupsert, h]
    · simp [alookup, h0] at h
      simp [aupsert, h0, ih h]

theorem aupsert_aupsert {β : Type} (l : List (TransactionId × β)) (k : TransactionId)
    (v w : β) : aupsert (aupsert l k v) k w = aupsert l k w := by
  induction l with
  | nil => simp [aupsert]
  | cons p t ih =>
    obtain ⟨k0, v0⟩ := p
    by_cases h0 : k0 = k
    · subst h0; simp [aupsert]
    · simp [aupsert, h0, ih]

theorem aupsert_of_absent {β : Type} {l : List (TransactionId × β)} {k : TransactionId}
    (v : β) (h : alookup l k = none) : aupsert l k v = l ++ [(k, v)] := by
  induction l with
  | nil => simp [aupsert]
  | cons p t ih =>
    obtain ⟨k0, v0⟩ := p
    by_cases h0 : k0 = k
    · subst h0; simp [alookup] at h
    · simp [alookup, h0] at h
      simp [aupsert, h0, ih h]

theorem alookup_of_not_mem_keys {β : Type} {l : List (TransactionId × β)}
    {k : TransactionId} (h : k ∉ l.map Prod.fst) : alookup l k = none := by
  induction l with
  | nil => simp [alookup]
  | cons p t ih =>
    obtain ⟨k0, v0⟩ := p
    rw [List.map_cons, List.mem_cons] at h
    push_neg at h
    have h1 : ¬ k0 = k := fun hk => h.1 (by simp [hk])
    simp [alookup, h1, ih h.2]

theorem alookup_aremove_aupsert {β : Type} {l : List (TransactionId × β)}
    {k : TransactionId} (v : β) (hnd : (l.map Prod.fst).Nodup) :
    alookup (aremove (aupsert l k v) k) k = none := by
  induction l with
  | nil => simp [aupsert, aremove, alookup]
  | cons p t ih =>
    obtain ⟨k0, v0⟩ := p
    rw [List.map_cons, List.nodup_cons] at hnd
    by_cases h0 : k0 = k
    · subst h0
      simp [aupsert, aremove]
      exact alookup_of_not_mem_keys hnd.1
    · simp [aupsert, aremove, h0, alookup, ih hnd.2]

/-- C1: the claim says the stored `total` field equals `available + held` at every
observation point because it is incrementally maintained on every write.  The code
does not maintain it: `Account::deposit` only touches `available`, so after a
successful deposit of 1 into a fresh account the stored `total` field is still 0
while `available + held = 1` (the recomputing `total()` method disagrees with the
serialized field). -/
theorem C1_deposit_leaves_stored_total_stale :
    (Account.deposit (Account.new 1 0 0 false) 1).1 = none ∧
    (Account.deposit (Account.new 1 0 0 false) 1).2.available +
      (Account.deposit (Account.new 1 0 0 false) 1).2.held = 1 ∧
    (Account.deposit (Account.new 1 0 0 false) 1).2.total' = 1 ∧
    (Account.deposit (Account.new 1 0 0 false) 1).2.total = 0 := by
  refine ⟨rfl, ?_, ?_, ?_⟩ <;> norm_num [Account.deposit, Account.new, Account.total']

/-- C2: the claim says a `hold` that fails with insufficient funds leaves `held`
unchanged.  The code increments `held` before the fallible subtraction from
`available`: holding 1 on an account with `available = held = 0` fails with
`InsufficientFunds` but leaves `held = 1` (and `available = 0`). -/
theorem C2_failed_hold_mutates_held :
    (Account.hold (Account.new 1 0 0 false) 1).1 = some .insufficientFunds ∧
    (Account.hold (Account.new 1 0 0 false) 1).2.held = 1 ∧
    (Account.hold (Account.new 1 0 0 false) 1).2.available = 0 ∧
    Account.withdraw (Account.new 1 0 0 false) 1 =
      (some .insufficientFunds, Account.new 1 0 0 false) ∧
    Account.chargeback (Account.new 1 0 0 false) 1 =
      (some .insufficientFunds, Account.new 1 0 0 false) := by
  refine ⟨?_, ?_, ?_, ?_, ?_⟩ <;>
    norm_num [Account.hold, Account.withdraw, Account.chargeback, Account.new,
      checkedSub]

/-- C4: on a locked account every one of the five mutating operations fails with
the frozen-account error (`AccountLocked`) and returns the account unchanged; the
lock check comes first, so this holds for every amount, including amounts that
would also fail the insufficient-funds checks. -/
theorem C4_locked_account_rejects_all_operations (a : Account) (amt : Amount)
    (h : a.locked = true) :
    Account.deposit a amt = (some .accountLocked, a) ∧
    Account.withdraw a amt = (some .accountLocked, a) ∧
    Account.hold a amt = (some .accountLocked, a) ∧
    Account.release a amt = (some .accountLocked, a) ∧
    Account.chargeback a amt = (some .accountLocked, a) := by
  simp [Account.deposit, Account.withdraw, Account.hold, Account.release,
    Account.chargeback, h]

/-- Witness for C4 at a concrete locked account and amount. -/
theorem C4_witness :
    (Account.new 7 3 2 true).locked = true ∧
    Account.deposit (Account.new 7 3 2 true) 5 =
      (some .accountLocked, Account.new 7 3 2 true) ∧
    Account.chargeback (Account.new 7 3 2 true) 5 =
      (some .accountLocked, Account.new 7 3 2 true) := by
  refine ⟨rfl, ?_, ?_⟩
  · exact (C4_locked_account_rejects_all_operations (Account.new 7 3 2 true) 5 rfl).1
  · exact (C4_locked_account_rejects_all_operations (Account.new 7 3 2 true) 5
      rfl).2.2.2.2

/-- C6 counterexample: the claim says a transition attempted on a command
transaction fails with an illegal-state-change error.  The code returns
`InvalidTransactionId` instead: `change_state` on a `Dispute` command yields an
error that is not an `IllegalStateChange`. -/
theorem C6_counterexample :
    changeState (.dispute 1 1) .Disputed =
      (some (.invalidTransactionId (.dispute 1 1)), .dispute 1 1) ∧
    (changeState (.dispute 1 1) .Disputed).1.map
      TransactionError.isIllegalStateChange = some false := by
  exact ⟨rfl, rfl⟩

/-- C6 (amended): for `Deposit`/`Withdrawal` a transition succeeds exactly for
the three permitted pairs (`Okay → Disputed`, `Disputed → Okay`,
`Disputed → ChargedBack`) and otherwise fails with an illegal-state-change error
carrying the offending transaction, leaving the state unchanged; a transition
attempted on a `Dispute`/`Resolve`/`Chargeback` command fails with an
invalid-transaction-id error (not an illegal-state-change error), leaving the
transaction unchanged. -/
theorem C6_change_state_characterization :
    (∀ id amt c s t, changeState (.deposit id amt c s) t =
      if allowedTransition s t then (none, Transaction.deposit id amt c t)
      else (some (.illegalStateChange (.deposit id amt c s)),
        .deposit id amt c s)) ∧
    (∀ id amt c s t, changeState (.withdrawal id amt c s) t =
      if allowedTransition s t then (none, Transaction.withdrawal id amt c t)
      else (some (.illegalStateChange (.withdrawal id amt c s)),
        .withdrawal id amt c s)) ∧
    (∀ id c t, changeState (.dispute id c) t =
      (some (.invalidTransactionId (.dispute id c)), .dispute id c)) ∧
    (∀ id c t, changeState (.resolve id c) t =
      (some (.invalidTransactionId (.resolve id c)), .resolve id c)) ∧
    (∀ id c t, changeState (.chargeback id c) t =
      (some (.invalidTransactionId (.chargeback id c)), .chargeback id c)) ∧
    (∀ s t, allowedTransition s t = true ↔
      (s = .Okay ∧ t = .Disputed) ∨ (s = .Disputed ∧ t = .Okay) ∨
        (s = .Disputed ∧ t = .ChargedBack)) := by
  refine ⟨fun _ _ _ _ _ => rfl, fun _ _ _ _ _ => rfl, fun _ _ _ => rfl,
    fun _ _ _ => rfl, fun _ _ _ => rfl, fun s t => ?_⟩
  cases s <;> cases t <;> simp [allowedTransition]

/-- Helper: if a transaction carries a dispute state `s` and the transition
`s → t` is not permitted, `change_state` fails with `IllegalStateChange` and
returns the transaction unchanged. -/
theorem changeState_of_stateOf_not_allowed {txr : Transaction}
    {s t : TransactionState} (h : txr.stateOf = some s)
    (hna : allowedTransition s t = false) :
    changeState txr t = (some (.illegalStateChange txr), txr) := by
  cases txr with
  | deposit id a c s0 =>
    simp [Transaction.stateOf] at h
    subst h
    simp [changeState, hna]
  | withdrawal id a c s0 =>
    simp [Transaction.stateOf] at h
    subst h
    simp [changeState, hna]
  | dispute id c => simp [Transaction.stateOf] at h
  | resolve id c => simp [Transaction.stateOf] at h
  | chargeback id c => simp [Transaction.stateOf] at h

/-- Helper: a state other than `Okay` may not move to `Disputed`. -/
theorem allowed_to_disputed_false {s : TransactionState} (h : s ≠ .Okay) :
    allowedTransition s .Disputed = false := by
  cases s with
  | Okay => exact absurd rfl h
  | Disputed => rfl
  | ChargedBack => rfl

/-- Helper: a state other than `Disputed` may not move to `Okay`. -/
theorem allowed_to_okay_false {s : TransactionState} (h : s ≠ .Disputed) :
    allowedTransition s .Okay = false := by
  cases s with
  | Okay => rfl
  | Disputed => exact absurd rfl h
  | ChargedBack => rfl

/-- Helper: a state other than `Disputed` may not move to `ChargedBack`. -/
theorem allowed_to_chargedback_false {s : TransactionState} (h : s ≠ .Disputed) :
    allowedTransition s .ChargedBack = false := by
  cases s with
  | Okay => rfl
  | Disputed => exact absurd rfl h
  | ChargedBack => rfl

/-- C3 counterexample: with client 1 holding deposits of 1 (tx 1) and 5 (tx 2)
and transaction 1 already disputed (`held = 1`), a second dispute of
transaction 1 fails with the illegal-state-change error, yet the account's held
balance has grown to 2: the hold performed before the failed state transition is
not rolled back, contradicting the claim that balances are unchanged. -/
theorem C3_counterexample :
    (handleTransaction disputeTwiceState (.dispute 1 1)).1 =
      some (.illegalStateChange (.deposit 1 1 1 .Disputed)) ∧
    (alookup disputeTwiceState.accounts 1).map (fun p => p.1.held) = some 1 ∧
    (alookup (handleTransaction disputeTwiceState (.dispute 1 1)).2.accounts 1).map
      (fun p => p.1.held) = some 2 := by
  refine ⟨?_, ?_, ?_⟩ <;>
    norm_num [disputeTwiceState, runP, handleTransaction, initState, alookup,
      aupsert, Account.new, Account.deposit, Account.hold, checkedSub, changeState,
      allowedTransition, Transaction.clientId, Transaction.amount, accountErr]

/-- C3 (amended): a dispute, resolve or chargeback whose referenced transaction
is present but not in the required prior state fails with an
illegal-state-change error and leaves the history — in particular the
referenced transaction's state — unchanged, provided the preceding balance step
succeeds; but that balance step's mutation persists: a dispute moves the amount
from available to held, a resolve moves it from held to available, and a
chargeback removes it from held and locks the account. -/
theorem C3_illegal_state_keeps_first_step_mutation
    (st : ProcState) (c : ClientId) (tid : TransactionId) (A : Amount)
    (acct : Account) (hist : History) (txr : Transaction) (s : TransactionState)
    (hacc : alookup st.accounts c = some (acct, hist))
    (hnl : acct.locked = false)
    (htx : alookup hist tid = some txr)
    (hamt : txr.amount = some A)
    (hst : txr.stateOf = some s) :
    (s ≠ .Okay → A ≤ acct.available →
      handleTransaction st (.dispute tid c) =
        (some (.illegalStateChange txr),
         { accounts := aupsert st.accounts c
             ({ acct with available := acct.available - A, held := acct.held + A },
              hist),
           global_tx_ids := st.global_tx_ids })) ∧
    (s ≠ .Disputed → A ≤ acct.held →
      handleTransaction st (.resolve tid c) =
        (some (.illegalStateChange txr),
         { accounts := aupsert st.accounts c
             ({ acct with held := acct.held - A, available := acct.available + A },
              hist),
           global_tx_ids := st.global_tx_ids })) ∧
    (s ≠ .Disputed → A ≤ acct.held →
      handleTransaction st (.chargeback tid c) =
        (some (.illegalStateChange txr),
         { accounts := aupsert st.accounts c
             ({ acct with held := acct.held - A, locked := true }, hist),
           global_tx_ids := st.global_tx_ids })) := by
  refine ⟨fun hs hav => ?_, fun hs hav => ?_, fun hs hav => ?_⟩
  · have hcs := changeState_of_stateOf_not_allowed hst (allowed_to_disputed_false hs)
    simp [handleTransaction, Transaction.clientId, hacc, htx, hamt, Account.hold,
      hnl, checkedSub, hav, hcs, aupsert_self htx]
  · have hcs := changeState_of_stateOf_not_allowed hst (allowed_to_okay_false hs)
    simp [handleTransaction, Transaction.clientId, hacc, htx, hamt, Account.release,
      hnl, checkedSub, hav, hcs, aupsert_self htx]
  · have hcs := changeState_of_stateOf_not_allowed hst
      (allowed_to_chargedback_false hs)
    simp [handleTransaction, Transaction.clientId, hacc, htx, hamt,
      Account.chargeback, hnl, checkedSub, hav, hcs, aupsert_self htx]

/-- Witness for C3 (amended) at the concrete state of the counterexample:
client 1 with available 5, held 1 and transaction 1 recorded as `Disputed`. -/
theorem C3_witness :
    (TransactionState.Disputed ≠ TransactionState.Okay) ∧
    ((1 : Amount) ≤ 5) ∧
    handleTransaction disputeTwiceState (.dispute 1 1) =
      (some (.illegalStateChange (.deposit 1 1 1 .Disputed)),
       { accounts := aupsert disputeTwiceState.accounts 1
           (({ (⟨1, 5, 1, 0, false⟩ : Account) with
                available := (5 : Amount) - 1, held := (1 : Amount) + 1 },
             [(1, .deposit 1 1 1 .Disputed), (2, .deposit 2 5 1 .Okay)])),
         global_tx_ids := disputeTwiceState.global_tx_ids }) := by
  refine ⟨by decide, by norm_num, ?_⟩
  have hacc : alookup disputeTwiceState.accounts 1 =
      some (⟨1, 5, 1, 0, false⟩,
        [(1, .deposit 1 1 1 .Disputed), (2, .deposit 2 5 1 .Okay)]) := by
    norm_num [disputeTwiceState, runP, handleTransaction, initState, alookup,
      aupsert, Account.new, Account.deposit, Account.hold, checkedSub, changeState,
      allowedTransition, Transaction.clientId, Transaction.amount, accountErr]
  have htx : alookup
      [((1 : TransactionId), Transaction.deposit 1 1 1 .Disputed),
       (2, .deposit 2 5 1 .Okay)] 1 = some (.deposit 1 1 1 .Disputed) := by
    norm_num [alookup]
  exact (C3_illegal_state_keeps_first_step_mutation disputeTwiceState 1 1 1
    ⟨1, 5, 1, 0, false⟩ _ _ .Disputed hacc rfl htx rfl rfl).1
    (by decide) (by norm_num)

/-- Helper: a dispute/resolve/chargeback whose client already has an account and
whose referenced id is absent from that account's history fails with
`TransactionNotFound` and returns the state entirely unchanged. -/
theorem refCmd_not_found_present (st : ProcState) (tx : Transaction)
    (acct : Account) (hist : History) (hcmd : tx.isRefCmd = true)
    (h1 : alookup st.accounts tx.clientId = some (acct, hist))
    (h2 : alookup hist tx.txId = none) :
    handleTransaction st tx = (some (.transactionNotFound tx), st) := by
  cases tx with
  | dispute id c =>
    simp [Transaction.clientId] at h1
    simp [Transaction.txId] at h2
    simp [handleTransaction, Transaction.clientId, h1, h2, aupsert_self h1]
  | resolve id c =>
    simp [Transaction.clientId] at h1
    simp [Transaction.txId] at h2
    simp [handleTransaction, Transaction.clientId, h1, h2, aupsert_self h1]
  | chargeback id c =>
    simp [Transaction.clientId] at h1
    simp [Transaction.txId] at h2
    simp [handleTransaction, Transaction.clientId, h1, h2, aupsert_self h1]
  | deposit id a c s => simp [Transaction.isRefCmd] at hcmd
  | withdrawal id a c s => simp [Transaction.isRefCmd] at hcmd

/-- Helper: a dispute/resolve/chargeback naming a client with no account yet
fails with `TransactionNotFound`; the only state change is the appended fresh
zero account created by `entry().or_insert_with`. -/
theorem refCmd_not_found_absent (st : ProcState) (tx : Transaction)
    (hcmd : tx.isRefCmd = true)
    (h : alookup st.accounts tx.clientId = none) :
    handleTransaction st tx =
      (some (.transactionNotFound tx),
        { accounts := st.accounts ++
            [(tx.clientId, (Account.new tx.clientId 0 0 false, []))],
          global_tx_ids := st.global_tx_ids }) := by
  cases tx with
  | dispute id c =>
    simp [Transaction.clientId] at h
    simp [handleTransaction, Transaction.clientId, h, alookup,
      aupsert_of_absent _ h]
  | resolve id c =>
    simp [Transaction.clientId] at h
    simp [handleTransaction, Transaction.clientId, h, alookup,
      aupsert_of_absent _ h]
  | chargeback id c =>
    simp [Transaction.clientId] at h
    simp [handleTransaction, Transaction.clientId, h, alookup,
      aupsert_of_absent _ h]
  | deposit id a c s => simp [Transaction.isRefCmd] at hcmd
  | withdrawal id a c s => simp [Transaction.isRefCmd] at hcmd

/-- Helper: whatever the record, `handle_transaction` only changes the accounts
map at the record's own client key (the looked-up-or-created slot is written
back). -/
theorem handleTransaction_accounts_shape (st : ProcState) (tx : Transaction) :
    ∃ p, (handleTransaction st tx).2.accounts = aupsert st.accounts tx.clientId p := by
  cases tx <;> simp only [handleTransaction] <;> (repeat' split) <;> exact ⟨_, rfl⟩

/-- C8: a dispute, resolve or chargeback whose referenced transaction id is
absent from the target account's history — including an id recorded only under
another client — fails with `TransactionNotFound` and modifies nothing: with an
existing target account the processor state is returned exactly unchanged, and
with no target account the only change is the freshly created empty account. -/
theorem C8_transaction_not_found_changes_nothing
    (st : ProcState) (tx : Transaction) (hcmd : tx.isRefCmd = true) :
    (∀ acct hist, alookup st.accounts tx.clientId = some (acct, hist) →
      alookup hist tx.txId = none →
      handleTransaction st tx = (some (.transactionNotFound tx), st)) ∧
    (alookup st.accounts tx.clientId = none →
      handleTransaction st tx =
        (some (.transactionNotFound tx),
          { accounts := st.accounts ++
              [(tx.clientId, (Account.new tx.clientId 0 0 false, []))],
            global_tx_ids := st.global_tx_ids })) := by
  exact ⟨fun acct hist h1 h2 => refCmd_not_found_present st tx acct hist hcmd h1 h2,
    fun h => refCmd_not_found_absent st tx hcmd h⟩

/-- Witness for C8: client 2 holds only transaction 9; a dispute by client 2 of
transaction 7 (which exists only in client 1's history) leaves the state
untouched and reports `TransactionNotFound`. -/
theorem C8_witness :
    Transaction.isRefCmd (.dispute 7 2) = true ∧
    handleTransaction
      { accounts :=
          [(1, (Account.new 1 3 0 false, [(7, .deposit 7 3 1 .Okay)])),
           (2, (Account.new 2 4 0 false, [(9, .deposit 9 4 2 .Okay)]))],
        global_tx_ids := [7, 9] }
      (.dispute 7 2) =
      (some (.transactionNotFound (.dispute 7 2)),
       { accounts :=
           [(1, (Account.new 1 3 0 false, [(7, .deposit 7 3 1 .Okay)])),
            (2, (Account.new 2 4 0 false, [(9, .deposit 9 4 2 .Okay)]))],
         global_tx_ids := [7, 9] }) := by
  refine ⟨rfl, ?_⟩
  exact (C8_transaction_not_found_changes_nothing _ (.dispute 7 2) rfl).1
    (Account.new 2 4 0 false) [(9, .deposit 9 4 2 .Okay)]
    (by norm_num [alookup, Transaction.clientId])
    (by norm_num [alookup, Transaction.txId])

/-- C10: a record naming a previously unseen client id always causes an account
for that client to exist afterwards; the account is created with zero
available, zero held and unlocked, and when the record is a dispute, resolve or
chargeback (which then fails with `TransactionNotFound`) the still-empty account
is exactly what is stored and appears in the snapshot `get_accounts` returns. -/
theorem C10_unseen_client_creates_empty_account (st : ProcState) (tx : Transaction)
    (h : alookup st.accounts tx.clientId = none) :
    (∃ p, alookup (handleTransaction st tx).2.accounts tx.clientId = some p) ∧
    ((Account.new tx.clientId 0 0 false).available = 0 ∧
     (Account.new tx.clientId 0 0 false).held = 0 ∧
     (Account.new tx.clientId 0 0 false).locked = false) ∧
    (tx.isRefCmd = true →
      handleTransaction st tx =
        (some (.transactionNotFound tx),
          { accounts := st.accounts ++
              [(tx.clientId, (Account.new tx.clientId 0 0 false, []))],
            global_tx_ids := st.global_tx_ids }) ∧
      Account.new tx.clientId 0 0 false ∈
        getAccounts (handleTransaction st tx).2) := by
  refine ⟨?_, ⟨by simp [Account.new], by simp [Account.new], rfl⟩, fun hcmd => ?_⟩
  · obtain ⟨p, hp⟩ := handleTransaction_accounts_shape st tx
    exact ⟨p, by rw [hp, alookup_aupsert]; simp⟩
  · have habs := refCmd_not_found_absent st tx hcmd h
    refine ⟨habs, ?_⟩
    rw [habs]
    simp [getAccounts]

/-- Witness for C10: a resolve from the unseen client 5 referencing transaction 3
creates (and keeps) the empty unlocked account for client 5. -/
theorem C10_witness :
    alookup (initState).accounts (Transaction.clientId (.resolve 3 5)) = none ∧
    (Transaction.resolve 3 5).isRefCmd = true ∧
    Account.new 5 0 0 false ∈
      getAccounts (handleTransaction initState (.resolve 3 5)).2 := by
  refine ⟨rfl, rfl, ?_⟩
  exact ((C10_unseen_client_creates_empty_account initState (.resolve 3 5)
    rfl).2.2 rfl).2

/-- C7: with a deposit of amount `A` recorded `Okay` in the target account's
history (whose keys, as in a `HashMap`, are distinct) and `A ≤ available` on an
unlocked account, a dispute succeeds and moves exactly `A` from available to
held, leaving `total()` unchanged; resolving the now-`Disputed` transaction
returns the processor state exactly to what it was before the dispute; charging
it back instead removes `A` from held (back to the pre-dispute held), reduces
`total()` by `A`, locks the account and removes the transaction from the
history. -/
theorem C7_dispute_resolve_chargeback_exact_amounts
    (st : ProcState) (c cd : ClientId) (tid : TransactionId) (A : Amount)
    (acct : Account) (hist : History)
    (hacc : alookup st.accounts c = some (acct, hist))
    (hnl : acct.locked = false)
    (hheld : 0 ≤ acct.held)
    (hnd : (hist.map Prod.fst).Nodup)
    (htx : alookup hist tid = some (.deposit tid A cd .Okay))
    (hav : A ≤ acct.available) :
    ∀ acctD histD stD,
      acctD = { acct with
                available := acct.available - A, held := acct.held + A } →
      histD = aupsert hist tid (.deposit tid A cd .Disputed) →
      stD = { accounts := aupsert st.accounts c (acctD, histD),
              global_tx_ids := st.global_tx_ids } →
      handleTransaction st (.dispute tid c) = (none, stD) ∧
      acctD.total' = acct.total' ∧
      acctD.locked = false ∧
      handleTransaction stD (.resolve tid c) = (none, st) ∧
      (handleTransaction stD (.chargeback tid c)).1 = none ∧
      (∃ acct3 hist3,
        alookup (handleTransaction stD (.chargeback tid c)).2.accounts c =
          some (acct3, hist3) ∧
        acct3.available = acct.available - A ∧
        acct3.held = acct.held ∧
        acct3.locked = true ∧
        acct3.total' = acct.total' - A ∧
        alookup hist3 tid = none) := by
  intro acctD histD stD hD hH hS
  subst hD hH hS
  obtain ⟨cid, av, hd, tot, lk⟩ := acct
  replace hnl : lk = false := hnl
  subst hnl
  replace hheld : 0 ≤ hd := hheld
  replace hav : A ≤ av := hav
  have h1 : A ≤ hd + A := le_add_of_nonneg_left hheld
  refine ⟨?_, ?_, ?_, ?_, ?_, ?_⟩
  · simp [handleTransaction, Transaction.clientId, hacc, htx, Transaction.amount,
      Account.hold, checkedSub, hav, changeState, allowedTransition]
  · simp [Account.total']
  · rfl
  · simp [handleTransaction, Transaction.clientId, Transaction.amount,
      alookup_aupsert, aupsert_aupsert, aupsert_self htx, aupsert_self hacc,
      Account.release, checkedSub, changeState, allowedTransition, h1,
      add_sub_cancel_right, sub_add_cancel]
  · simp [handleTransaction, Transaction.clientId, Transaction.amount,
      alookup_aupsert, aupsert_aupsert, Account.chargeback, checkedSub,
      changeState, allowedTransition, h1]
  · refine ⟨⟨cid, av - A, hd, tot, true⟩,
      aremove (aupsert hist tid (.deposit tid A cd .ChargedBack)) tid, ?_, rfl, rfl,
      rfl, ?_, ?_⟩
    · simp [handleTransaction, Transaction.clientId, Transaction.amount,
        alookup_aupsert, aupsert_aupsert, Account.chargeback, checkedSub,
        changeState, allowedTransition, h1, add_sub_cancel_right]
    · simp [Account.total']
      ring
    · exact alookup_aremove_aupsert _ hnd

/-- Witness for C7 at a concrete state: client 1 with available 5, held 2 and an
`Okay` deposit of 3 (transaction 10); after the dispute, resolving returns the
state exactly to the original. -/
theorem C7_witness :
    ((0 : Amount) ≤ 2) ∧ ((3 : Amount) ≤ 5) ∧
    handleTransaction
      { accounts := [(1, (⟨1, 2, 5, 7, false⟩,
          [(10, .deposit 10 3 1 .Disputed)]))], global_tx_ids := [10] }
      (.resolve 10 1) =
      (none,
       { accounts := [(1, (⟨1, 5, 2, 7, false⟩,
           [(10, .deposit 10 3 1 .Okay)]))], global_tx_ids := [10] }) := by
  refine ⟨by norm_num, by norm_num, ?_⟩
  have h := C7_dispute_resolve_chargeback_exact_amounts
    { accounts := [(1, (⟨1, 5, 2, 7, false⟩, [(10, .deposit 10 3 1 .Okay)]))],
      global_tx_ids := [10] }
    1 1 10 3 ⟨1, 5, 2, 7, false⟩ [(10, .deposit 10 3 1 .Okay)]
    (by norm_num [alookup]) rfl (by norm_num) (by simp) (by norm_num [alookup])
    (by norm_num)
    ⟨1, 2, 5, 7, false⟩ [(10, .deposit 10 3 1 .Disputed)]
    { accounts := [(1, (⟨1, 2, 5, 7, false⟩,
        [(10, .deposit 10 3 1 .Disputed)]))], global_tx_ids := [10] }
    (by simp; norm_num) (by simp [aupsert]) (by simp [aupsert])
  exact h.2.2.2.1

/-- C9: serialising an `Amount` (rounding to 4 fractional digits with
round-half-away-from-zero) and re-parsing the rendered decimal succeeds — the
parsed scale is within the limit and rounding preserves non-negativity — and
yields the original amount rounded to the fixed scale; when the amount already
has scale at most 4 (as every parsed amount does) the round trip is the
identity. -/
theorem C9_amount_format_parse_round_trip (d : Dec) (h : 0 ≤ d.m) :
    deserializeAmount (serializeAmount d) = some (roundDp 4 d) ∧
    (d.s ≤ 4 → deserializeAmount (serializeAmount d) = some d) := by
  have hs : (roundDp 4 d).s ≤ 4 := by
    unfold roundDp
    split
    · omega
    · simp
  have hm : 0 ≤ (roundDp 4 d).m := by
    unfold roundDp
    split
    · exact h
    · simp only [roundHalfAway, if_pos h]
      positivity
  constructor
  · unfold serializeAmount deserializeAmount
    rw [if_neg (by omega), if_neg (by omega)]
  · intro hle
    unfold serializeAmount deserializeAmount roundDp
    rw [if_pos hle, if_neg (by omega), if_neg (by omega)]

/-- Witness for C9: 0.00015 (scale 5) serialises to 0.0002 (a midpoint rounded
away from zero) and parses back to exactly the rounded value; 1.2345 (scale 4)
round-trips to itself. -/
theorem C9_witness :
    (0 : Int) ≤ 15 ∧
    deserializeAmount (serializeAmount ⟨15, 5⟩) = some ⟨2, 4⟩ ∧
    deserializeAmount (serializeAmount ⟨12345, 4⟩) = some ⟨12345, 4⟩ := by
  refine ⟨by decide, ?_, ?_⟩
  · have h := (C9_amount_format_parse_round_trip ⟨15, 5⟩ (by decide)).1
    rw [h]
    decide
  · exact (C9_amount_format_parse_round_trip ⟨12345, 4⟩ (by decide)).2 (by decide)

/-- Helper: one processing step adds an id to the global registry exactly when
the record is a deposit/withdrawal with that id and it succeeded. -/
theorem registry_step (st : ProcState) (tx : Transaction) (id : TransactionId) :
    id ∈ (handleTransaction st tx).2.global_tx_ids ↔
      id ∈ st.global_tx_ids ∨
        (tx.isDW = true ∧ tx.txId = id ∧ (handleTransaction st tx).1 = none) := by
  cases tx with
  | deposit id0 amt c s =>
    simp only [handleTransaction, Transaction.isDW, Transaction.txId]
    split
    · simp
    · rcases h : Account.deposit ((alookup st.accounts
        (Transaction.clientId (.deposit id0 amt c s))).getD
          (Account.new (Transaction.clientId (.deposit id0 amt c s)) 0 0 false,
            [])).1 amt with ⟨e?, acct'⟩
      cases e? <;> simp [List.mem_cons, eq_comm] <;> tauto
  | withdrawal id0 amt c s =>
    simp only [handleTransaction, Transaction.isDW, Transaction.txId]
    split
    · simp
    · rcases h : Account.withdraw ((alookup st.accounts
        (Transaction.clientId (.withdrawal id0 amt c s))).getD
          (Account.new (Transaction.clientId (.withdrawal id0 amt c s)) 0 0 false,
            [])).1 amt with ⟨e?, acct'⟩
      cases e? <;> simp [List.mem_cons, eq_comm] <;> tauto
  | dispute id0 c =>
    simp only [handleTransaction, Transaction.isDW]
    (repeat' split) <;> simp
  | resolve id0 c =>
    simp only [handleTransaction, Transaction.isDW]
    (repeat' split) <;> simp
  | chargeback id0 c =>
    simp only [handleTransaction, Transaction.isDW]
    (repeat' split) <;> simp

/-- Helper: a step either succeeds or leaves the global registry unchanged. -/
theorem result_none_or_registry_unchanged (st : ProcState) (tx : Transaction) :
    (handleTransaction st tx).1 = none ∨
      (handleTransaction st tx).2.global_tx_ids = st.global_tx_ids := by
  cases tx <;> simp only [handleTransaction] <;> (repeat' split) <;> simp

/-- Helper: a deposit/withdrawal whose id is already registered fails with the
duplicate-id error, registers nothing, and changes no account entry (beyond the
lazily created empty account for an unseen client). -/
theorem duplicate_step (st : ProcState) (tx : Transaction)
    (hdw : tx.isDW = true) (hdup : tx.txId ∈ st.global_tx_ids) :
    (handleTransaction st tx).1 = some (.duplicateGlobalTransactionId tx) ∧
    (handleTransaction st tx).2.global_tx_ids = st.global_tx_ids ∧
    ∀ c', alookup (handleTransaction st tx).2.accounts c' =
      if tx.clientId = c' then
        some ((alookup st.accounts tx.clientId).getD
          (Account.new tx.clientId 0 0 false, []))
      else alookup st.accounts c' := by
  cases tx with
  | deposit id0 amt c s =>
    simp only [Transaction.txId] at hdup
    simp [handleTransaction, Transaction.clientId, hdup, alookup_aupsert]
  | withdrawal id0 amt c s =>
    simp only [Transaction.txId] at hdup
    simp [handleTransaction, Transaction.clientId, hdup, alookup_aupsert]
  | dispute id0 c => simp [Transaction.isDW] at hdw
  | resolve id0 c => simp [Transaction.isDW] at hdw
  | chargeback id0 c => simp [Transaction.isDW] at hdw

/-- Helper: over a whole run, an id is registered iff it was registered at the
start or some deposit/withdrawal record with that id succeeded. -/
theorem registry_trace (txs : List Transaction) (st : ProcState) (id : TransactionId) :
    id ∈ (runP st txs).global_tx_ids ↔
      id ∈ st.global_tx_ids ∨
        ∃ i, ∃ h : i < txs.length,
          (txs.get ⟨i, h⟩).isDW = true ∧ (txs.get ⟨i, h⟩).txId = id ∧
          (runResults st txs).get? i = some none := by
  induction txs generalizing st with
  | nil => simp [runP, runResults]
  | cons tx rest ih =>
    rw [show runP st (tx :: rest) = runP (handleTransaction st tx).2 rest from rfl]
    rw [ih, registry_step st tx id, or_assoc]
    constructor
    · rintro (h | (⟨h1, h2, h3⟩ | ⟨i, hi, hQ1, hQ2, hQ3⟩))
      · exact Or.inl h
      · exact Or.inr ⟨0, Nat.succ_pos _, h1, h2, by simp [runResults, h3]⟩
      · refine Or.inr ⟨i + 1, Nat.succ_lt_succ hi, by simpa using hQ1,
          by simpa using hQ2, by simpa [runResults] using hQ3⟩
    · rintro (h | ⟨i, hi, hQ1, hQ2, hQ3⟩)
      · exact Or.inl h
      · cases i with
        | zero =>
          refine Or.inr (Or.inl ⟨by simpa using hQ1, by simpa using hQ2, ?_⟩)
          simpa [runResults] using hQ3
        | succ j =>
          refine Or.inr (Or.inr ⟨j, Nat.lt_of_succ_lt_succ hi, by simpa using hQ1,
            by simpa using hQ2, by simpa [runResults] using hQ3⟩)

/-- C5: starting from the empty processor, a transaction id is in the global
registry iff some deposit or withdrawal with that id was applied successfully;
a deposit/withdrawal with an already-registered id fails with the duplicate-id
error, changes no account's balances or history and registers nothing; and any
failing record leaves the registry unchanged, so the id of a failed
deposit/withdrawal remains free for a later record. -/
theorem C5_registry_iff_successful_deposit_or_withdrawal :
    (∀ txs id, id ∈ (runP initState txs).global_tx_ids ↔
      ∃ i, ∃ h : i < txs.length,
        (txs.get ⟨i, h⟩).isDW = true ∧ (txs.get ⟨i, h⟩).txId = id ∧
        (runResults initState txs).get? i = some none) ∧
    (∀ st tx, tx.isDW = true → tx.txId ∈ st.global_tx_ids →
      (handleTransaction st tx).1 = some (.duplicateGlobalTransactionId tx) ∧
      (handleTransaction st tx).2.global_tx_ids = st.global_tx_ids ∧
      ∀ c', alookup (handleTransaction st tx).2.accounts c' =
        if tx.clientId = c' then
          some ((alookup st.accounts tx.clientId).getD
            (Account.new tx.clientId 0 0 false, []))
        else alookup st.accounts c') ∧
    (∀ st tx e, (handleTransaction st tx).1 = some e →
      (handleTransaction st tx).2.global_tx_ids = st.global_tx_ids) := by
  refine ⟨fun txs id => ?_, duplicate_step, fun st tx e he => ?_⟩
  · rw [registry_trace]
    simp [initState]
  · rcases result_none_or_registry_unchanged st tx with h | h
    · rw [he] at h; cases h
    · exact h

/-- Witness for C5: a duplicate deposit of id 5 against a registry containing 5
is rejected, and after one successful deposit of id 5 from the empty state the
registry contains 5. -/
theorem C5_witness :
    Transaction.isDW (.deposit 5 1 1 .Okay) = true ∧
    Transaction.txId (.deposit 5 1 1 .Okay) ∈
      ({ accounts := [], global_tx_ids := [5] } : ProcState).global_tx_ids ∧
    (handleTransaction { accounts := [], global_tx_ids := [5] }
        (.deposit 5 1 1 .Okay)).1 =
      some (.duplicateGlobalTransactionId (.deposit 5 1 1 .Okay)) ∧
    ((5 : TransactionId) ∈
      (runP initState [.deposit 5 1 1 .Okay]).global_tx_ids) := by
  refine ⟨rfl, by simp [Transaction.txId], ?_, ?_⟩
  · exact (C5_registry_iff_successful_deposit_or_withdrawal.2.1
      { accounts := [], global_tx_ids := [5] } (.deposit 5 1 1 .Okay) rfl
      (by simp [Transaction.txId])).1
  · refine (C5_registry_iff_successful_deposit_or_withdrawal.1
      [.deposit 5 1 1 .Okay] 5).mpr ⟨0, by norm_num, rfl, rfl, ?_⟩
    show (runResults initState [.deposit 5 1 1 .Okay]).get? 0 = some none
    norm_num [runResults, runP, handleTransaction, initState, alookup, aupsert,
      Account.new, Account.deposit, Transaction.clientId]

end Payments
